import Mathlib

/-!
Shallow embedding of `python/ray/tune/stopper.py`: the `Stopper` policy
hierarchy, in particular the stateful `EarlyStopping` stopper and the
`FunctionStopper` wrapper with its `is_valid_function` classmethod.

Python dicts (`self.counter`, `self.best_score`, `self.early_stop`) are
embedded as partial maps `TrialId → Option α`; a result is an association
list of metric names to rational values; dict `KeyError`s are surfaced as
explicit `Except` errors; the `print` call becomes an emitted `Event`.
-/

namespace RayTuneStopper

abbrev TrialId := String

/-- A reported result: a mapping of metric names to numeric values. -/
abbrev Result := List (String × ℚ)

/-- Errors a call can raise: a `KeyError` on the result dict (the configured
monitor metric is missing — the spec's `MissingMetric`), or a `KeyError` on one
of the per-trial state dicts. -/
inductive PyErr where
  | keyError (key : String)
  | stateKeyError (key : TrialId)
  deriving DecidableEq

/-- Observable output of a call: the `print` of the stall counter emits the
line saying `EarlyStopping counter: c out of p` with the new counter value c
and the patience p. -/
inductive Event where
  | counterPrint (count : Nat) (patience : Nat)
  deriving DecidableEq

/-- Partial-map update, embedding a Python dict assignment `d[k] = v`. -/
def setKey {α : Type} (m : TrialId → Option α) (k : TrialId) (v : α) :
    TrialId → Option α :=
  fun t => if t = k then some v else m t

/-- State of `EarlyStopping` as assigned by `EarlyStopping.__init__`. -/
structure EarlyStopping where
  patience : Nat
  verbose : Bool
  monitor : String
  mode : String
  counter : TrialId → Option Nat
  best_score : TrialId → Option ℚ
  early_stop : TrialId → Option Bool
  delta : ℚ

/-- A fresh `EarlyStopping` as built by `__init__`: the three per-trial dicts
start empty. Arguments are positional: patience, verbose, delta, monitor, mode
(defaults in the source: 7, False, 0, "val_loss", "min"). -/
def mkEarlyStopping (patience : Nat) (verbose : Bool) (delta : ℚ)
    (monitor : String) (mode : String) : EarlyStopping :=
  { patience := patience
    verbose := verbose
    monitor := monitor
    mode := mode
    counter := fun _ => none
    best_score := fun _ => none
    early_stop := fun _ => none
    delta := delta }

/-- The score normalization at the top of `EarlyStopping.__call__`:
`score = -result[monitor]` when mode is "min", else `score = result[monitor]`. -/
def normScore (mode : String) (raw : ℚ) : ℚ :=
  if mode = "min" then -raw else raw

/-- Embedding of `EarlyStopping.__call__(self, trial_id, result)`. Returns the decision, the
events printed during the call, and the updated state; or a `PyErr` where the
Python code would raise a `KeyError`. -/
def EarlyStopping.call (self : EarlyStopping) (trial_id : TrialId)
    (result : Result) : Except PyErr (Bool × List Event × EarlyStopping) :=
  match result.lookup self.monitor with
  | none => .error (.keyError self.monitor)
  | some raw =>
    let score := normScore self.mode raw
    match self.best_score trial_id with
    | some best =>
      if score ≤ best + self.delta then
        match self.counter trial_id with
        | none => .error (.stateKeyError trial_id)
        | some c =>
          let self1 : EarlyStopping :=
            { self with counter := setKey self.counter trial_id (c + 1) }
          let events := [Event.counterPrint (c + 1) self.patience]
          let self2 : EarlyStopping :=
            if self.patience ≤ c + 1 then
              { self1 with early_stop := setKey self1.early_stop trial_id true }
            else self1
          match self2.early_stop trial_id with
          | none => .error (.stateKeyError trial_id)
          | some b => .ok (b, events, self2)
      else
        let self1 : EarlyStopping :=
          { self with
              best_score := setKey self.best_score trial_id score
              counter := setKey self.counter trial_id 0 }
        match self1.early_stop trial_id with
        | none => .error (.stateKeyError trial_id)
        | some b => .ok (b, [], self1)
    | none =>
      let self1 : EarlyStopping :=
        { self with
            counter := setKey self.counter trial_id 0
            best_score := setKey self.best_score trial_id score
            early_stop := setKey self.early_stop trial_id false }
      match self1.early_stop trial_id with
      | none => .error (.stateKeyError trial_id)
      | some b => .ok (b, [], self1)

/-- Embedding of `EarlyStopping.stop_all`: always false. -/
def EarlyStopping.stop_all (_self : EarlyStopping) : Bool := false

/-- Feeding a sequence of results for one trial through `__call__`, collecting
the boolean decisions (events are printed to stdout and not part of state). -/
def EarlyStopping.runCalls (self : EarlyStopping) (trial_id : TrialId) :
    List Result → Except PyErr (List Bool × EarlyStopping)
  | [] => .ok ([], self)
  | r :: rs =>
    match self.call trial_id r with
    | .error e => .error e
    | .ok (b, _, self1) =>
      match self1.runCalls trial_id rs with
      | .error e => .error e
      | .ok (bs, self2) => .ok (b :: bs, self2)

/-- The state reached after feeding `rs` (the state itself when a call raised). -/
def stateAfter (self : EarlyStopping) (trial_id : TrialId) (rs : List Result) :
    EarlyStopping :=
  match self.runCalls trial_id rs with
  | .ok (_, s) => s
  | .error _ => self

/-- The three per-trial dicts hold exactly the same trial ids. -/
def EarlyStopping.synced (self : EarlyStopping) : Prop :=
  ∀ t, ((self.counter t).isSome = (self.best_score t).isSome) ∧
    ((self.early_stop t).isSome = (self.best_score t).isSome)

/-- The relevant runtime attributes of a Python value passed to
`FunctionStopper`: whether `callable(fn)` holds, whether `type(fn)` is a
`Stopper` subclass, whether `hasattr(fn, "stop_all")`, and its behaviour as a
predicate when called. -/
structure PyFunction where
  isCallable : Bool
  isStopperSubclass : Bool
  hasStopAll : Bool
  apply : TrialId → Result → Bool

/-- State of a `FunctionStopper` instance: `__init__` stores the function in `_fn`. -/
structure FunctionStopper where
  _fn : PyFunction

/-- Embedding of `FunctionStopper.__init__(self, function)`: assigns `self._fn = function`
and can never raise. The `Except` result records that construction is a
fallible operation in Python; this constructor always returns `.ok`. -/
def FunctionStopper.init (function : PyFunction) : Except String FunctionStopper :=
  .ok { _fn := function }

/-- Embedding of `FunctionStopper.__call__`: delegates to the stored function. -/
def FunctionStopper.call (self : FunctionStopper) (trial_id : TrialId)
    (result : Result) : Bool :=
  self._fn.apply trial_id result

/-- Embedding of `FunctionStopper.stop_all`: always false. -/
def FunctionStopper.stop_all (_self : FunctionStopper) : Bool := false

/-- Embedding of the `FunctionStopper.is_valid_function` classmethod: raises `ValueError` when a
non-`Stopper` callable exposes a `stop_all` attribute, else reports whether the
argument is a plain function. -/
def FunctionStopper.is_valid_function (fn : PyFunction) : Except String Bool :=
  let is_function := fn.isCallable && !fn.isStopperSubclass
  if is_function && fn.hasStopAll then
    .error
      "Stop object must be ray.tune.Stopper subclass to be detected correctly."
  else
    .ok is_function

/-- A non-`Stopper` callable that exposes a `stop_all` attribute: the shape of
argument the validation classmethod rejects. -/
def policyLikeFn : PyFunction :=
  { isCallable := true
    isStopperSubclass := false
    hasStopAll := true
    apply := fun _ _ => false }

/-- A plain predicate: callable, no `stop_all` attribute, not a `Stopper`. -/
def plainPredicateFn : PyFunction :=
  { isCallable := true
    isStopperSubclass := false
    hasStopAll := false
    apply := fun _ _ => true }

/-- Two `EarlyStopping` states with the same decision-relevant configuration
(patience, delta) and identical per-trial dicts; monitor, mode and verbose may
differ. -/
def decisionEquiv (s1 s2 : EarlyStopping) : Prop :=
  s1.patience = s2.patience ∧ s1.delta = s2.delta ∧ s1.counter = s2.counter ∧
  s1.best_score = s2.best_score ∧ s1.early_stop = s2.early_stop

/-- A policy with patience p (delta 0, monitor val_loss, mode min) after one
baseline result `val_loss = 1` for trial t1: entry with best score -1,
counter 0, not stopped. -/
def trackingState (p : Nat) : EarlyStopping :=
  stateAfter (mkEarlyStopping p false 0 "val_loss" "min") "t1" [[("val_loss", 1)]]

/-- Patience-1 policy after a baseline and one stall for trial t1: the trial
is stopped with counter 1 and best score -1. -/
def stoppedState : EarlyStopping :=
  stateAfter (mkEarlyStopping 1 false 0 "val_loss" "min") "t1"
    [[("val_loss", 1)], [("val_loss", 1)]]

/-- The outcome of one further non-improving call on the stopped trial. -/
def stoppedStateNextCall : Except PyErr (Bool × List Event × EarlyStopping) :=
  stoppedState.call "t1" [("val_loss", 1)]

/-- The outcome of the first non-improving call after a baseline under the
default configuration with `verbose = false`. -/
def verboseOffSecondCall : Except PyErr (Bool × List Event × EarlyStopping) :=
  (trackingState 7).call "t1" [("val_loss", 1)]

/-! ### Characterization of each branch of `EarlyStopping.__call__` -/

/-- New-trial branch: no prior `best_score` entry creates all three entries. -/
theorem call_new (self : EarlyStopping) (t : TrialId) (r : Result) (raw : ℚ)
    (hr : r.lookup self.monitor = some raw)
    (hb : self.best_score t = none) :
    self.call t r = .ok (false, [],
      { self with
          counter := setKey self.counter t 0
          best_score := setKey self.best_score t (normScore self.mode raw)
          early_stop := setKey self.early_stop t false }) := by
  unfold EarlyStopping.call
  rw [hr]
  simp only [hb, setKey, if_pos rfl, if_true]

/-- Stall branch below patience: the counter increments, a counter line is
printed, and nothing else changes. -/
theorem call_stall (self : EarlyStopping) (t : TrialId) (r : Result) (raw b : ℚ)
    (c : Nat) (e : Bool)
    (hr : r.lookup self.monitor = some raw)
    (hb : self.best_score t = some b)
    (hc : self.counter t = some c)
    (he : self.early_stop t = some e)
    (hle : normScore self.mode raw ≤ b + self.delta)
    (hlt : c + 1 < self.patience) :
    self.call t r = .ok (e, [Event.counterPrint (c + 1) self.patience],
      { self with counter := setKey self.counter t (c + 1) }) := by
  unfold EarlyStopping.call
  rw [hr]
  simp only [hb, hc, if_pos hle, if_neg (Nat.not_le.mpr hlt), he]

/-- Stall branch reaching patience: the counter increments, the stop flag is
latched true, and the call returns true. -/
theorem call_stall_stop (self : EarlyStopping) (t : TrialId) (r : Result)
    (raw b : ℚ) (c : Nat)
    (hr : r.lookup self.monitor = some raw)
    (hb : self.best_score t = some b)
    (hc : self.counter t = some c)
    (hle : normScore self.mode raw ≤ b + self.delta)
    (hge : self.patience ≤ c + 1) :
    self.call t r = .ok (true, [Event.counterPrint (c + 1) self.patience],
      { self with
          counter := setKey self.counter t (c + 1)
          early_stop := setKey self.early_stop t true }) := by
  unfold EarlyStopping.call
  rw [hr]
  simp only [hb, hc, if_pos hle, if_pos hge, setKey, if_pos rfl, if_true]

/-- Improvement branch: `best_score` is overwritten, the counter resets to 0,
and the already-recorded stop flag is returned unchanged. -/
theorem call_improve (self : EarlyStopping) (t : TrialId) (r : Result)
    (raw b : ℚ) (e : Bool)
    (hr : r.lookup self.monitor = some raw)
    (hb : self.best_score t = some b)
    (he : self.early_stop t = some e)
    (hgt : b + self.delta < normScore self.mode raw) :
    self.call t r = .ok (e, [],
      { self with
          best_score := setKey self.best_score t (normScore self.mode raw)
          counter := setKey self.counter t 0 }) := by
  unfold EarlyStopping.call
  rw [hr]
  simp only [hb, if_neg (not_le.mpr hgt), he]

/-- Stall branch with no counter entry: the `self.counter[trial_id] += 1`
lookup raises. -/
theorem call_stall_missing_counter (self : EarlyStopping) (t : TrialId)
    (r : Result) (raw b : ℚ)
    (hr : r.lookup self.monitor = some raw)
    (hb : self.best_score t = some b)
    (hc : self.counter t = none)
    (hle : normScore self.mode raw ≤ b + self.delta) :
    self.call t r = .error (.stateKeyError t) := by
  unfold EarlyStopping.call
  rw [hr]
  simp only [hb, hc, if_pos hle]

/-- Stall branch below patience with no stop-flag entry: the final
`self.early_stop[trial_id]` read raises. -/
theorem call_stall_missing_stop (self : EarlyStopping) (t : TrialId)
    (r : Result) (raw b : ℚ) (c : Nat)
    (hr : r.lookup self.monitor = some raw)
    (hb : self.best_score t = some b)
    (hc : self.counter t = some c)
    (he : self.early_stop t = none)
    (hle : normScore self.mode raw ≤ b + self.delta)
    (hlt : c + 1 < self.patience) :
    self.call t r = .error (.stateKeyError t) := by
  unfold EarlyStopping.call
  rw [hr]
  simp only [hb, hc, if_pos hle, if_neg (Nat.not_le.mpr hlt), he]

/-- Improvement branch with no stop-flag entry: the final
`self.early_stop[trial_id]` read raises. -/
theorem call_improve_missing_stop (self : EarlyStopping) (t : TrialId)
    (r : Result) (raw b : ℚ)
    (hr : r.lookup self.monitor = some raw)
    (hb : self.best_score t = some b)
    (he : self.early_stop t = none)
    (hgt : b + self.delta < normScore self.mode raw) :
    self.call t r = .error (.stateKeyError t) := by
  unfold EarlyStopping.call
  rw [hr]
  simp only [hb, if_neg (not_le.mpr hgt), he]

/-! ### Runs of consecutive non-improving results -/

/-- Running `runCalls` on the empty result list returns no decisions. -/
theorem runCalls_nil (self : EarlyStopping) (t : TrialId) :
    self.runCalls t [] = .ok ([], self) := rfl

/-- Step lemma for `runCalls`: a successful call followed by a successful run. -/
theorem runCalls_cons_ok (self : EarlyStopping) (t : TrialId) (r : Result)
    (rs : List Result) (b : Bool) (evs : List Event) (s1 : EarlyStopping)
    (bs : List Bool) (s2 : EarlyStopping)
    (h1 : self.call t r = .ok (b, evs, s1))
    (h2 : s1.runCalls t rs = .ok (bs, s2)) :
    self.runCalls t (r :: rs) = .ok (b :: bs, s2) := by
  unfold EarlyStopping.runCalls
  simp only [h1, h2]

/-- Step lemma for `runCalls`: a failing call fails the whole run. -/
theorem runCalls_cons_err (self : EarlyStopping) (t : TrialId) (r : Result)
    (rs : List Result) (e : PyErr)
    (h1 : self.call t r = .error e) :
    self.runCalls t (r :: rs) = .error e := by
  unfold EarlyStopping.runCalls
  simp only [h1]

/-- A run of stalls that stays strictly below patience: every decision is
false, the counter advances by the length of the run, and the best score,
stop flag and configuration are unchanged. -/
theorem runCalls_stall_short (t : TrialId) (b : ℚ) (rs : List Result) :
    ∀ (self : EarlyStopping) (c : Nat),
      self.best_score t = some b → self.counter t = some c →
      self.early_stop t = some false →
      (∀ r ∈ rs, ∃ raw, r.lookup self.monitor = some raw ∧
        normScore self.mode raw ≤ b + self.delta) →
      c + rs.length < self.patience →
      ∃ s2, self.runCalls t rs = .ok (List.replicate rs.length false, s2) ∧
        s2.best_score t = some b ∧ s2.counter t = some (c + rs.length) ∧
        s2.early_stop t = some false ∧ s2.patience = self.patience ∧
        s2.delta = self.delta ∧ s2.monitor = self.monitor ∧
        s2.mode = self.mode := by
  induction rs with
  | nil =>
    intro self c hb hc he _ _
    exact ⟨self, by simp [EarlyStopping.runCalls], hb, by simpa using hc, he,
      rfl, rfl, rfl, rfl⟩
  | cons r rs ih =>
    intro self c hb hc he hstall hlt
    obtain ⟨raw, hr, hle⟩ := hstall r (List.mem_cons_self r rs)
    have hlt1 : c + 1 < self.patience := by
      simp only [List.length_cons] at hlt; omega
    have hcall := call_stall self t r raw b c false hr hb hc he hle hlt1
    obtain ⟨s2, hrun, hb2, hc2, he2, hp2, hd2, hm2, hmo2⟩ :=
      ih { self with counter := setKey self.counter t (c + 1) } (c + 1)
        hb (by simp [setKey]) he
        (by
          intro r2 hr2
          obtain ⟨raw2, hr2l, hle2⟩ := hstall r2 (List.mem_cons_of_mem r hr2)
          exact ⟨raw2, hr2l, hle2⟩)
        (by simp only [List.length_cons] at hlt ⊢; omega)
    refine ⟨s2, ?_, hb2, ?_, he2, hp2, hd2, hm2, hmo2⟩
    · simp only [EarlyStopping.runCalls, hcall, hrun, List.length_cons,
        List.replicate_succ]
    · simp only [List.length_cons]
      convert hc2 using 2
      omega

/-- A run of stalls whose last element makes the counter reach patience: the
decisions are all false except a final true, and the stop flag latches. -/
theorem runCalls_stall_stop (t : TrialId) (b : ℚ) (rs : List Result) :
    ∀ (self : EarlyStopping) (c : Nat),
      self.best_score t = some b → self.counter t = some c →
      self.early_stop t = some false →
      (∀ r ∈ rs, ∃ raw, r.lookup self.monitor = some raw ∧
        normScore self.mode raw ≤ b + self.delta) →
      c + rs.length = self.patience → rs ≠ [] →
      ∃ s2, self.runCalls t rs =
          .ok (List.replicate (rs.length - 1) false ++ [true], s2) ∧
        s2.early_stop t = some true := by
  induction rs with
  | nil => intro _ _ _ _ _ _ _ hne; exact absurd rfl hne
  | cons r rs ih =>
    intro self c hb hc he hstall hlen _
    obtain ⟨raw, hr, hle⟩ := hstall r (List.mem_cons_self r rs)
    cases rs with
    | nil =>
      have hge : self.patience ≤ c + 1 := by
        simp only [List.length_cons, List.length_nil] at hlen; omega
      have hcall := call_stall_stop self t r raw b c hr hb hc hle hge
      refine ⟨{ self with
          counter := setKey self.counter t (c + 1)
          early_stop := setKey self.early_stop t true }, ?_, ?_⟩
      · rw [runCalls_cons_ok _ t r [] true _ _ [] _ hcall (runCalls_nil _ t)]
        simp
      · simp [setKey]
    | cons r2 rs2 =>
      have hlt1 : c + 1 < self.patience := by
        simp only [List.length_cons] at hlen; omega
      have hcall := call_stall self t r raw b c false hr hb hc he hle hlt1
      obtain ⟨s2, hrun, hstop⟩ :=
        ih { self with counter := setKey self.counter t (c + 1) } (c + 1)
          hb (by simp [setKey]) he
          (by
            intro r3 hr3
            obtain ⟨raw3, hr3l, hle3⟩ := hstall r3 (List.mem_cons_of_mem r hr3)
            exact ⟨raw3, hr3l, hle3⟩)
          (by simp only [List.length_cons] at hlen ⊢; omega)
          (by simp)
      refine ⟨s2, ?_, hstop⟩
      rw [runCalls_cons_ok _ t r (r2 :: rs2) false _ _ _ _ hcall hrun]
      simp only [List.length_cons, Nat.add_sub_cancel, List.replicate_succ,
        List.cons_append]

/-- C2: with patience p ≥ 1, a baseline result followed by exactly p
consecutive non-improving results (each normalized score at most the baseline
score plus delta) yields false on the baseline and on the first p-1 stalls,
and true exactly on the p-th stall. -/
theorem earlyStopping_patience_run (p : Nat) (hp : 1 ≤ p) (verbose : Bool)
    (delta : ℚ) (monitor mode : String) (t : TrialId) (v0 : ℚ) (vs : List ℚ)
    (hlen : vs.length = p)
    (hstall : ∀ v ∈ vs, normScore mode v ≤ normScore mode v0 + delta) :
    ∃ s2, (mkEarlyStopping p verbose delta monitor mode).runCalls t
        ((v0 :: vs).map (fun v => [(monitor, v)])) =
      .ok (List.replicate p false ++ [true], s2) ∧
      s2.early_stop t = some true := by
  obtain ⟨q, rfl⟩ : ∃ q, p = q + 1 := ⟨p - 1, by omega⟩
  set s0 := mkEarlyStopping (q + 1) verbose delta monitor mode with hs0
  have hr0 : ([(monitor, v0)] : Result).lookup s0.monitor = some v0 := by
    simp [hs0, mkEarlyStopping, List.lookup]
  have hb0 : s0.best_score t = none := by simp [hs0, mkEarlyStopping]
  have hcall := call_new s0 t [(monitor, v0)] v0 hr0 hb0
  obtain ⟨s2, hrun, hstop⟩ :=
    runCalls_stall_stop t (normScore s0.mode v0)
      (vs.map (fun v => [(monitor, v)]))
      { s0 with
          counter := setKey s0.counter t 0
          best_score := setKey s0.best_score t (normScore s0.mode v0)
          early_stop := setKey s0.early_stop t false }
      0
      (by simp [setKey])
      (by simp [setKey])
      (by simp [setKey])
      (by
        intro r hrm
        simp only [List.mem_map] at hrm
        obtain ⟨v, hv, rfl⟩ := hrm
        refine ⟨v, ?_, ?_⟩
        · simp [hs0, mkEarlyStopping, List.lookup]
        · simpa [hs0, mkEarlyStopping] using hstall v hv)
      (by simp [hs0, mkEarlyStopping, hlen])
      (by
        intro hnil
        rw [List.map_eq_nil_iff] at hnil
        rw [hnil] at hlen
        simp at hlen)
  refine ⟨s2, ?_, hstop⟩
  have hfull := runCalls_cons_ok s0 t [(monitor, v0)]
    (vs.map (fun v => [(monitor, v)])) false [] _ _ _ hcall hrun
  rw [List.map_cons, hfull]
  simp only [List.length_map, hlen, Nat.add_sub_cancel, List.replicate_succ,
    List.cons_append]

/-! ### Claim theorems -/

/-- C3: a call whose result lacks the configured monitor key fails with the
missing-metric `KeyError` (raised at the very first step, before any per-trial
state is touched); when the key is present, no missing-metric error can arise. -/
theorem earlyStopping_missing_metric (self : EarlyStopping) (t : TrialId)
    (r : Result) :
    (r.lookup self.monitor = none →
      self.call t r = .error (.keyError self.monitor)) ∧
    (∀ raw, r.lookup self.monitor = some raw →
      ∀ k, self.call t r ≠ .error (.keyError k)) := by
  constructor
  · intro h
    unfold EarlyStopping.call
    rw [h]
  · intro raw hr k
    cases hb : self.best_score t with
    | none => rw [call_new self t r raw hr hb]; simp
    | some b =>
      by_cases hcmp : normScore self.mode raw ≤ b + self.delta
      · cases hc : self.counter t with
        | none => rw [call_stall_missing_counter self t r raw b hr hb hc hcmp]; simp
        | some c =>
          by_cases hge : self.patience ≤ c + 1
          · rw [call_stall_stop self t r raw b c hr hb hc hcmp hge]; simp
          · cases he : self.early_stop t with
            | none =>
              rw [call_stall_missing_stop self t r raw b c hr hb hc he hcmp
                (Nat.not_le.mp hge)]
              simp
            | some e =>
              rw [call_stall self t r raw b c e hr hb hc he hcmp
                (Nat.not_le.mp hge)]
              simp
      · cases he : self.early_stop t with
        | none =>
          rw [call_improve_missing_stop self t r raw b hr hb he (not_le.mp hcmp)]
          simp
        | some e =>
          rw [call_improve self t r raw b e hr hb he (not_le.mp hcmp)]
          simp

/-- C3 witness: a concrete empty result with the default monitor raises the
missing-metric error. -/
theorem earlyStopping_missing_metric_witness :
    (mkEarlyStopping 7 false 0 "val_loss" "min").call "t1" [] =
      .error (.keyError (mkEarlyStopping 7 false 0 "val_loss" "min").monitor) :=
  (earlyStopping_missing_metric (mkEarlyStopping 7 false 0 "val_loss" "min")
    "t1" []).1 rfl

/-- C4: the first call for a trial whose result has the monitor key returns
false and creates the trial's entry with the normalized score as best score,
counter 0 and stop flag false. -/
theorem earlyStopping_first_call (self : EarlyStopping) (t : TrialId)
    (r : Result) (raw : ℚ)
    (hr : r.lookup self.monitor = some raw)
    (hb : self.best_score t = none) :
    ∃ s1, self.call t r = .ok (false, [], s1) ∧
      s1.best_score t = some (normScore self.mode raw) ∧
      s1.counter t = some 0 ∧ s1.early_stop t = some false := by
  refine ⟨_, call_new self t r raw hr hb, ?_, ?_, ?_⟩ <;> simp [setKey]

/-- C4 witness: first result `val_loss = 3` for trial t1 under the default
configuration. -/
theorem earlyStopping_first_call_witness :
    ∃ s1, (mkEarlyStopping 7 false 0 "val_loss" "min").call "t1"
        [("val_loss", 3)] = .ok (false, [], s1) ∧
      s1.best_score "t1" =
        some (normScore (mkEarlyStopping 7 false 0 "val_loss" "min").mode 3) ∧
      s1.counter "t1" = some 0 ∧ s1.early_stop "t1" = some false :=
  earlyStopping_first_call (mkEarlyStopping 7 false 0 "val_loss" "min") "t1"
    [("val_loss", 3)] 3 rfl rfl

/-- C5: on an existing entry, a strictly improving result (score greater than
best score plus delta) overwrites the best score and resets the counter to 0;
any other result increments the counter by one, so the counter never
decreases except through that reset. -/
theorem earlyStopping_improve_resets (self : EarlyStopping) (t : TrialId)
    (r : Result) (raw b : ℚ) (c : Nat) (e : Bool)
    (hr : r.lookup self.monitor = some raw)
    (hb : self.best_score t = some b)
    (hc : self.counter t = some c)
    (he : self.early_stop t = some e) :
    ∃ b1 evs s1, self.call t r = .ok (b1, evs, s1) ∧
      (b + self.delta < normScore self.mode raw →
        s1.best_score t = some (normScore self.mode raw) ∧
        s1.counter t = some 0) ∧
      (normScore self.mode raw ≤ b + self.delta →
        s1.counter t = some (c + 1) ∧ c ≤ c + 1) := by
  by_cases hcmp : normScore self.mode raw ≤ b + self.delta
  · by_cases hge : self.patience ≤ c + 1
    · refine ⟨true, _, _, call_stall_stop self t r raw b c hr hb hc hcmp hge,
        ?_, ?_⟩
      · intro hgt; exact absurd hcmp (not_le.mpr hgt)
      · intro _; exact ⟨by simp [setKey], Nat.le_succ c⟩
    · refine ⟨e, _, _,
        call_stall self t r raw b c e hr hb hc he hcmp (Nat.not_le.mp hge),
        ?_, ?_⟩
      · intro hgt; exact absurd hcmp (not_le.mpr hgt)
      · intro _; exact ⟨by simp [setKey], Nat.le_succ c⟩
  · refine ⟨e, _, _, call_improve self t r raw b e hr hb he (not_le.mp hcmp),
      ?_, ?_⟩
    · intro _; exact ⟨by simp [setKey], by simp [setKey]⟩
    · intro hle; exact absurd hle hcmp

/-- C5 witness: after a baseline `val_loss = 1` (best score -1), the improving
result `val_loss = 0` overwrites the best score and resets the counter. -/
theorem earlyStopping_improve_resets_witness :
    ∃ b1 evs s1, (trackingState 3).call "t1" [("val_loss", 0)] =
        .ok (b1, evs, s1) ∧
      (-1 + (trackingState 3).delta < normScore (trackingState 3).mode 0 →
        s1.best_score "t1" = some (normScore (trackingState 3).mode 0) ∧
        s1.counter "t1" = some 0) ∧
      (normScore (trackingState 3).mode 0 ≤ -1 + (trackingState 3).delta →
        s1.counter "t1" = some (0 + 1) ∧ 0 ≤ 0 + 1) :=
  earlyStopping_improve_resets (trackingState 3) "t1" [("val_loss", 0)] 0
    (-1) 0 false rfl rfl rfl rfl

/-- C6: on an existing entry the stop flag is a terminal latch: once true it
stays true (and the call keeps returning true); from the tracking state it
becomes true exactly when a non-improving result pushes the counter to at
least patience. -/
theorem earlyStopping_stop_terminal_latch (self : EarlyStopping) (t : TrialId)
    (r : Result) (raw b : ℚ) (c : Nat) (e : Bool)
    (hr : r.lookup self.monitor = some raw)
    (hb : self.best_score t = some b)
    (hc : self.counter t = some c)
    (he : self.early_stop t = some e) :
    ∃ b1 evs s1, self.call t r = .ok (b1, evs, s1) ∧
      (e = true → b1 = true ∧ s1.early_stop t = some true) ∧
      (e = false → (s1.early_stop t = some true ↔
        normScore self.mode raw ≤ b + self.delta ∧ self.patience ≤ c + 1)) := by
  by_cases hcmp : normScore self.mode raw ≤ b + self.delta
  · by_cases hge : self.patience ≤ c + 1
    · refine ⟨true, _, _, call_stall_stop self t r raw b c hr hb hc hcmp hge,
        ?_, ?_⟩
      · intro _; exact ⟨rfl, by simp [setKey]⟩
      · intro _
        exact iff_of_true (by simp [setKey]) ⟨hcmp, hge⟩
    · refine ⟨e, _, _,
        call_stall self t r raw b c e hr hb hc he hcmp (Nat.not_le.mp hge),
        ?_, ?_⟩
      · intro het; subst het; exact ⟨rfl, he⟩
      · intro hef; subst hef
        refine iff_of_false ?_ ?_
        · rw [show ({ self with
              counter := setKey self.counter t (c + 1) } : EarlyStopping).early_stop
            = self.early_stop from rfl, he]
          simp
        · rintro ⟨-, hge2⟩; exact hge hge2
  · refine ⟨e, _, _, call_improve self t r raw b e hr hb he (not_le.mp hcmp),
      ?_, ?_⟩
    · intro het; subst het; exact ⟨rfl, he⟩
    · intro hef; subst hef
      refine iff_of_false ?_ ?_
      · rw [show ({ self with
            best_score := setKey self.best_score t (normScore self.mode raw)
            counter := setKey self.counter t 0 } : EarlyStopping).early_stop
          = self.early_stop from rfl, he]
        simp
      · rintro ⟨hle, -⟩; exact hcmp hle

/-- C6 witness: from the tracking state of a patience-1 policy, one stall
latches the stop flag, and the latch condition holds. -/
theorem earlyStopping_stop_terminal_latch_witness :
    ∃ b1 evs s1, (trackingState 1).call "t1" [("val_loss", 1)] =
        .ok (b1, evs, s1) ∧
      (false = true → b1 = true ∧ s1.early_stop "t1" = some true) ∧
      (false = false → (s1.early_stop "t1" = some true ↔
        normScore (trackingState 1).mode 1 ≤ -1 + (trackingState 1).delta ∧
          (trackingState 1).patience ≤ 0 + 1)) :=
  earlyStopping_stop_terminal_latch (trackingState 1) "t1" [("val_loss", 1)] 1
    (-1) 0 false rfl rfl rfl rfl

/-- C2 witness: patience 3, delta 0, monitor val_loss, mode min; four results
`val_loss = 1.0` give decisions false, false, false, true. -/
theorem earlyStopping_patience_run_witness :
    ∃ s2, (mkEarlyStopping 3 false 0 "val_loss" "min").runCalls "t1"
        [[("val_loss", 1)], [("val_loss", 1)], [("val_loss", 1)],
          [("val_loss", 1)]] =
      .ok ([false, false, false, true], s2) ∧
      s2.early_stop "t1" = some true := by
  have h := earlyStopping_patience_run 3 (by decide) false 0 "val_loss" "min"
    "t1" 1 [1, 1, 1] rfl (by
      intro v hv
      obtain rfl : v = 1 := by simpa using hv
      norm_num [normScore])
  simpa using h

/-- C1 counterexample: patience-1 run `val_loss = 1` three times; after the
second call the trial is stopped with counter 1, yet the third call (made on
the already-stopped trial) still increments the counter to 2 — the call is
not short-circuited and the counter entry does not stay unchanged. -/
theorem earlyStopping_no_short_circuit :
    stoppedState.early_stop "t1" = some true ∧
    stoppedState.counter "t1" = some 1 ∧
    stoppedStateNextCall.toOption.map (fun x => x.1) = some true ∧
    stoppedStateNextCall.toOption.map (fun x => x.2.2.counter "t1") =
      some (some 2) := by
  refine ⟨?_, ?_, ?_, ?_⟩ <;>
    norm_num [stoppedStateNextCall, stoppedState, stateAfter,
      EarlyStopping.runCalls, EarlyStopping.call, mkEarlyStopping, normScore,
      setKey, List.lookup, Except.toOption]

/-- C1 amended: a call on an already-stopped trial (entry present, stop flag
true) always returns true and keeps the flag true, but it does not
short-circuit: a non-improving result still increments the counter and an
improving one still overwrites the best score and resets the counter. -/
theorem earlyStopping_stopped_always_true (self : EarlyStopping) (t : TrialId)
    (r : Result) (raw b : ℚ) (c : Nat)
    (hr : r.lookup self.monitor = some raw)
    (hb : self.best_score t = some b)
    (hc : self.counter t = some c)
    (he : self.early_stop t = some true) :
    ∃ evs s1, self.call t r = .ok (true, evs, s1) ∧
      s1.early_stop t = some true ∧
      (normScore self.mode raw ≤ b + self.delta →
        s1.counter t = some (c + 1)) ∧
      (b + self.delta < normScore self.mode raw →
        s1.best_score t = some (normScore self.mode raw) ∧
        s1.counter t = some 0) := by
  by_cases hcmp : normScore self.mode raw ≤ b + self.delta
  · by_cases hge : self.patience ≤ c + 1
    · refine ⟨_, _, call_stall_stop self t r raw b c hr hb hc hcmp hge,
        by simp [setKey], ?_, ?_⟩
      · intro _; simp [setKey]
      · intro hgt; exact absurd hcmp (not_le.mpr hgt)
    · refine ⟨_, _,
        call_stall self t r raw b c true hr hb hc he hcmp (Nat.not_le.mp hge),
        he, ?_, ?_⟩
      · intro _; simp [setKey]
      · intro hgt; exact absurd hcmp (not_le.mpr hgt)
  · refine ⟨_, _,
      call_improve self t r raw b true hr hb he (not_le.mp hcmp), he, ?_, ?_⟩
    · intro hle; exact absurd hle hcmp
    · intro _; exact ⟨by simp [setKey], by simp [setKey]⟩

/-- C1 amended witness: on the concrete stopped trial, an improving result
`val_loss = 0` still returns true and still rewrites best score and counter. -/
theorem earlyStopping_stopped_always_true_witness :
    ∃ evs s1, stoppedState.call "t1" [("val_loss", 0)] = .ok (true, evs, s1) ∧
      s1.early_stop "t1" = some true ∧
      (normScore stoppedState.mode 0 ≤ -1 + stoppedState.delta →
        s1.counter "t1" = some (1 + 1)) ∧
      (-1 + stoppedState.delta < normScore stoppedState.mode 0 →
        s1.best_score "t1" = some (normScore stoppedState.mode 0) ∧
        s1.counter "t1" = some 0) :=
  earlyStopping_stopped_always_true stoppedState "t1" [("val_loss", 0)] 0
    (-1) 1
    (by
      norm_num [stoppedState, stateAfter, EarlyStopping.runCalls,
        EarlyStopping.call, mkEarlyStopping, normScore, setKey, List.lookup])
    (by
      norm_num [stoppedState, stateAfter, EarlyStopping.runCalls,
        EarlyStopping.call, mkEarlyStopping, normScore, setKey, List.lookup])
    (by
      norm_num [stoppedState, stateAfter, EarlyStopping.runCalls,
        EarlyStopping.call, mkEarlyStopping, normScore, setKey, List.lookup])
    (by
      norm_num [stoppedState, stateAfter, EarlyStopping.runCalls,
        EarlyStopping.call, mkEarlyStopping, normScore, setKey, List.lookup])

/-- C8: the stall-counter line is printed unconditionally. With
`verbose = false` (here: the tracking state of a default-style patience-7,
verbose-off policy), the first non-improving call still emits the
`EarlyStopping counter: 1 out of 7` event — `verbose` is stored but never
consulted by `__call__`. -/
theorem earlyStopping_print_ignores_verbose :
    (trackingState 7).verbose = false ∧
    verboseOffSecondCall.toOption.map (fun x => x.2.1) =
      some [Event.counterPrint 1 7] := by
  refine ⟨?_, ?_⟩ <;>
    norm_num [verboseOffSecondCall, trackingState, stateAfter,
      EarlyStopping.runCalls, EarlyStopping.call, mkEarlyStopping, normScore,
      setKey, List.lookup, Except.toOption]

/-- C9 counterexample: `FunctionStopper.__init__` performs no validation, so
constructing it with a non-`Stopper` callable that exposes `stop_all`
succeeds; the rejection lives in the separate classmethod
`is_valid_function`, which is the call that raises. -/
theorem functionStopper_init_does_not_validate :
    FunctionStopper.init policyLikeFn = .ok { _fn := policyLikeFn } ∧
    FunctionStopper.is_valid_function policyLikeFn =
      .error
        "Stop object must be ray.tune.Stopper subclass to be detected correctly." :=
  ⟨rfl, rfl⟩

/-- C9 amended: construction always succeeds without validation; the
`is_valid_function` classmethod (which callers must invoke themselves) raises
for a non-`Stopper` callable exposing `stop_all` and accepts a plain
predicate. -/
theorem functionStopper_validation_in_classmethod :
    (∀ f : PyFunction, FunctionStopper.init f = .ok { _fn := f }) ∧
    (∀ f : PyFunction, f.isCallable = true → f.isStopperSubclass = false →
      f.hasStopAll = true →
      FunctionStopper.is_valid_function f =
        .error
          "Stop object must be ray.tune.Stopper subclass to be detected correctly.") ∧
    (∀ f : PyFunction, f.isCallable = true → f.isStopperSubclass = false →
      f.hasStopAll = false →
      FunctionStopper.is_valid_function f = .ok true) := by
  refine ⟨fun f => rfl, fun f h1 h2 h3 => ?_, fun f h1 h2 h3 => ?_⟩ <;>
    simp [FunctionStopper.is_valid_function, h1, h2, h3]

/-- C9 amended witness: the classmethod rejects the policy-like callable and
accepts the plain predicate. -/
theorem functionStopper_validation_in_classmethod_witness :
    FunctionStopper.is_valid_function policyLikeFn =
      .error
        "Stop object must be ray.tune.Stopper subclass to be detected correctly." ∧
    FunctionStopper.is_valid_function plainPredicateFn = .ok true :=
  ⟨functionStopper_validation_in_classmethod.2.1 policyLikeFn rfl rfl rfl,
   functionStopper_validation_in_classmethod.2.2 plainPredicateFn rfl rfl rfl⟩

/-- A state that agrees with a synced state away from `t` and has all three
entries present at `t` is synced. -/
theorem synced_of_update (self s1 : EarlyStopping) (hs : self.synced)
    (t : TrialId)
    (hco : ∀ u, u ≠ t → s1.counter u = self.counter u)
    (hbo : ∀ u, u ≠ t → s1.best_score u = self.best_score u)
    (heo : ∀ u, u ≠ t → s1.early_stop u = self.early_stop u)
    (hct : (s1.counter t).isSome = true)
    (hbt : (s1.best_score t).isSome = true)
    (het : (s1.early_stop t).isSome = true) : s1.synced := by
  intro u
  by_cases hu : u = t
  · subst hu
    rw [hct, hbt, het]
    exact ⟨rfl, rfl⟩
  · rw [hco u hu, hbo u hu, heo u hu]
    exact hs u

/-- C10: when the three per-trial dicts hold the same key set, a call never
raises an internal state `KeyError` (the `counter[trial_id] += 1` and final
`early_stop[trial_id]` accesses always find their key), and any normal return
leaves the three dicts again with the same key set. -/
theorem earlyStopping_maps_same_keys (self : EarlyStopping)
    (hs : self.synced) (t : TrialId) (r : Result) :
    (∀ u, self.call t r ≠ .error (.stateKeyError u)) ∧
    (∀ b evs s1, self.call t r = .ok (b, evs, s1) → s1.synced) := by
  cases hl : r.lookup self.monitor with
  | none =>
    have herr : self.call t r = .error (.keyError self.monitor) := by
      unfold EarlyStopping.call
      rw [hl]
    constructor
    · intro u hcontra
      rw [herr] at hcontra
      simp at hcontra
    · intro b evs s1 hok
      rw [herr] at hok
      exact absurd hok (by simp)
  | some raw =>
    cases hb : self.best_score t with
    | none =>
      have hcall := call_new self t r raw hl hb
      constructor
      · intro u
        rw [hcall]
        simp
      · intro b evs s1 hok
        rw [hcall] at hok
        simp only [Except.ok.injEq, Prod.mk.injEq] at hok
        obtain ⟨-, -, rfl⟩ := hok
        refine synced_of_update self _ hs t ?_ ?_ ?_ ?_ ?_ ?_ <;>
          first
            | (intro u hu; simp [setKey, hu])
            | simp [setKey]
    | some b =>
      have hcs : (self.counter t).isSome = true := by
        rw [(hs t).1, hb]
        rfl
      have hes : (self.early_stop t).isSome = true := by
        rw [(hs t).2, hb]
        rfl
      obtain ⟨c, hc⟩ := Option.isSome_iff_exists.mp hcs
      obtain ⟨e, he⟩ := Option.isSome_iff_exists.mp hes
      by_cases hcmp : normScore self.mode raw ≤ b + self.delta
      · by_cases hge : self.patience ≤ c + 1
        · have hcall := call_stall_stop self t r raw b c hl hb hc hcmp hge
          constructor
          · intro u
            rw [hcall]
            simp
          · intro b1 evs s1 hok
            rw [hcall] at hok
            simp only [Except.ok.injEq, Prod.mk.injEq] at hok
            obtain ⟨-, -, rfl⟩ := hok
            refine synced_of_update self _ hs t ?_ ?_ ?_ ?_ ?_ ?_ <;>
              first
                | (intro u hu; simp [setKey, hu])
                | simp [setKey, hb]
        · have hcall := call_stall self t r raw b c e hl hb hc he hcmp
            (Nat.not_le.mp hge)
          constructor
          · intro u
            rw [hcall]
            simp
          · intro b1 evs s1 hok
            rw [hcall] at hok
            simp only [Except.ok.injEq, Prod.mk.injEq] at hok
            obtain ⟨-, -, rfl⟩ := hok
            refine synced_of_update self _ hs t ?_ ?_ ?_ ?_ ?_ ?_ <;>
              first
                | (intro u hu; simp [setKey, hu])
                | simp [setKey, hb, he]
      · have hcall := call_improve self t r raw b e hl hb he (not_le.mp hcmp)
        constructor
        · intro u
          rw [hcall]
          simp
        · intro b1 evs s1 hok
          rw [hcall] at hok
          simp only [Except.ok.injEq, Prod.mk.injEq] at hok
          obtain ⟨-, -, rfl⟩ := hok
          refine synced_of_update self _ hs t ?_ ?_ ?_ ?_ ?_ ?_ <;>
            first
              | (intro u hu; simp [setKey, hu])
              | simp [setKey, he]

/-- C10 witness: from the freshly constructed (synced, all-empty) state, a
concrete call cannot raise the internal state `KeyError`. -/
theorem earlyStopping_maps_same_keys_witness :
    (mkEarlyStopping 7 false 0 "val_loss" "min").call "t1" [("val_loss", 1)] ≠
      .error (.stateKeyError "t1") :=
  (earlyStopping_maps_same_keys (mkEarlyStopping 7 false 0 "val_loss" "min")
    (fun _ => ⟨rfl, rfl⟩) "t1" [("val_loss", 1)]).1 "t1"

/-- One call preserves `decisionEquiv` and yields the same decision when the
two calls observe the same normalized score; monitor and mode are untouched. -/
theorem call_decisionEquiv (s1 s2 : EarlyStopping) (h : decisionEquiv s1 s2)
    (t : TrialId) (r1 r2 : Result) (x : ℚ)
    (h1 : (r1.lookup s1.monitor).map (normScore s1.mode) = some x)
    (h2 : (r2.lookup s2.monitor).map (normScore s2.mode) = some x) :
    (∃ e, s1.call t r1 = .error e ∧ s2.call t r2 = .error e) ∨
    (∃ b evs1 evs2 s1' s2', s1.call t r1 = .ok (b, evs1, s1') ∧
      s2.call t r2 = .ok (b, evs2, s2') ∧ decisionEquiv s1' s2' ∧
      s1'.monitor = s1.monitor ∧ s1'.mode = s1.mode ∧
      s2'.monitor = s2.monitor ∧ s2'.mode = s2.mode) := by
  obtain ⟨hp, hd, hcm, hbm, hem⟩ := h
  obtain ⟨raw1, hl1, hn1⟩ := Option.map_eq_some'.mp h1
  obtain ⟨raw2, hl2, hn2⟩ := Option.map_eq_some'.mp h2
  cases hb1 : s1.best_score t with
  | none =>
    have hb2 : s2.best_score t = none := by rw [← hbm]; exact hb1
    right
    refine ⟨false, [], [], _, _, call_new s1 t r1 raw1 hl1 hb1,
      call_new s2 t r2 raw2 hl2 hb2, ⟨hp, hd, ?_, ?_, ?_⟩, rfl, rfl, rfl, rfl⟩
    · show setKey s1.counter t 0 = setKey s2.counter t 0
      rw [hcm]
    · show setKey s1.best_score t (normScore s1.mode raw1) =
        setKey s2.best_score t (normScore s2.mode raw2)
      rw [hbm, hn1, hn2]
    · show setKey s1.early_stop t false = setKey s2.early_stop t false
      rw [hem]
  | some b =>
    have hb2 : s2.best_score t = some b := by rw [← hbm]; exact hb1
    by_cases hcmp : x ≤ b + s1.delta
    · have hcmp1 : normScore s1.mode raw1 ≤ b + s1.delta := by
        rw [hn1]; exact hcmp
      have hcmp2 : normScore s2.mode raw2 ≤ b + s2.delta := by
        rw [hn2, ← hd]; exact hcmp
      cases hc1 : s1.counter t with
      | none =>
        have hc2 : s2.counter t = none := by rw [← hcm]; exact hc1
        exact Or.inl ⟨.stateKeyError t,
          call_stall_missing_counter s1 t r1 raw1 b hl1 hb1 hc1 hcmp1,
          call_stall_missing_counter s2 t r2 raw2 b hl2 hb2 hc2 hcmp2⟩
      | some c =>
        have hc2 : s2.counter t = some c := by rw [← hcm]; exact hc1
        by_cases hge : s1.patience ≤ c + 1
        · have hge2 : s2.patience ≤ c + 1 := hp ▸ hge
          right
          refine ⟨true, _, _, _, _,
            call_stall_stop s1 t r1 raw1 b c hl1 hb1 hc1 hcmp1 hge,
            call_stall_stop s2 t r2 raw2 b c hl2 hb2 hc2 hcmp2 hge2,
            ⟨hp, hd, ?_, hbm, ?_⟩, rfl, rfl, rfl, rfl⟩
          · show setKey s1.counter t (c + 1) = setKey s2.counter t (c + 1)
            rw [hcm]
          · show setKey s1.early_stop t true = setKey s2.early_stop t true
            rw [hem]
        · have hlt1 : c + 1 < s1.patience := Nat.not_le.mp hge
          have hlt2 : c + 1 < s2.patience := hp ▸ hlt1
          cases he1 : s1.early_stop t with
          | none =>
            have he2 : s2.early_stop t = none := by rw [← hem]; exact he1
            exact Or.inl ⟨.stateKeyError t,
              call_stall_missing_stop s1 t r1 raw1 b c hl1 hb1 hc1 he1 hcmp1 hlt1,
              call_stall_missing_stop s2 t r2 raw2 b c hl2 hb2 hc2 he2 hcmp2 hlt2⟩
          | some e =>
            have he2 : s2.early_stop t = some e := by rw [← hem]; exact he1
            right
            refine ⟨e, _, _, _, _,
              call_stall s1 t r1 raw1 b c e hl1 hb1 hc1 he1 hcmp1 hlt1,
              call_stall s2 t r2 raw2 b c e hl2 hb2 hc2 he2 hcmp2 hlt2,
              ⟨hp, hd, ?_, hbm, hem⟩, rfl, rfl, rfl, rfl⟩
            show setKey s1.counter t (c + 1) = setKey s2.counter t (c + 1)
            rw [hcm]
    · have hgt1 : b + s1.delta < normScore s1.mode raw1 := by
        rw [hn1]; exact not_le.mp hcmp
      have hgt2 : b + s2.delta < normScore s2.mode raw2 := by
        rw [hn2, ← hd]; exact not_le.mp hcmp
      cases he1 : s1.early_stop t with
      | none =>
        have he2 : s2.early_stop t = none := by rw [← hem]; exact he1
        exact Or.inl ⟨.stateKeyError t,
          call_improve_missing_stop s1 t r1 raw1 b hl1 hb1 he1 hgt1,
          call_improve_missing_stop s2 t r2 raw2 b hl2 hb2 he2 hgt2⟩
      | some e =>
        have he2 : s2.early_stop t = some e := by rw [← hem]; exact he1
        right
        refine ⟨e, _, _, _, _,
          call_improve s1 t r1 raw1 b e hl1 hb1 he1 hgt1,
          call_improve s2 t r2 raw2 b e hl2 hb2 he2 hgt2,
          ⟨hp, hd, ?_, ?_, hem⟩, rfl, rfl, rfl, rfl⟩
        · show setKey s1.counter t 0 = setKey s2.counter t 0
          rw [hcm]
        · show setKey s1.best_score t (normScore s1.mode raw1) =
            setKey s2.best_score t (normScore s2.mode raw2)
          rw [hbm, hn1, hn2]

/-- Step lemma for `runCalls`: a successful call whose remaining run fails. -/
theorem runCalls_cons_tail_err (self : EarlyStopping) (t : TrialId)
    (r : Result) (rs : List Result) (b : Bool) (evs : List Event)
    (s1 : EarlyStopping) (e : PyErr)
    (h1 : self.call t r = .ok (b, evs, s1))
    (h2 : s1.runCalls t rs = .error e) :
    self.runCalls t (r :: rs) = .error e := by
  unfold EarlyStopping.runCalls
  simp only [h1, h2]

/-- Step lemma for `runCalls` in decision-sequence form. -/
theorem runCalls_cons_map (self : EarlyStopping) (t : TrialId) (r : Result)
    (rs : List Result) (b : Bool) (evs : List Event) (s1 : EarlyStopping)
    (h : self.call t r = .ok (b, evs, s1)) :
    Except.map (fun d => d.1) (self.runCalls t (r :: rs)) =
    Except.map (fun bs => b :: bs)
      (Except.map (fun d => d.1) (s1.runCalls t rs)) := by
  cases h2 : s1.runCalls t rs with
  | error e =>
    rw [runCalls_cons_tail_err self t r rs b evs s1 e h h2]
    simp [Except.map]
  | ok p =>
    obtain ⟨bs, s2⟩ := p
    rw [runCalls_cons_ok self t r rs b evs s1 bs s2 h h2]
    simp [Except.map]

/-- A minimize-mode run on raw values and a maximize-mode run on the mirrored
values produce the same decision sequence, from any pair of
`decisionEquiv` states with those modes and a common monitor. -/
theorem runCalls_min_max (monitor : String) (t : TrialId) (xs : List ℚ) :
    ∀ (s1 s2 : EarlyStopping), decisionEquiv s1 s2 →
      s1.monitor = monitor → s2.monitor = monitor →
      s1.mode = "min" → s2.mode = "max" →
      Except.map (fun d => d.1)
        (s1.runCalls t (xs.map (fun v => [(monitor, v)]))) =
      Except.map (fun d => d.1)
        (s2.runCalls t (xs.map (fun v => [(monitor, -v)]))) := by
  induction xs with
  | nil =>
    intro s1 s2 _ _ _ _ _
    simp [runCalls_nil, Except.map]
  | cons v xs ih =>
    intro s1 s2 h hm1 hm2 hmo1 hmo2
    have h1 : (([(monitor, v)] : Result).lookup s1.monitor).map
        (normScore s1.mode) = some (-v) := by
      rw [hm1, hmo1]
      simp [List.lookup, normScore]
    have h2 : (([(monitor, -v)] : Result).lookup s2.monitor).map
        (normScore s2.mode) = some (-v) := by
      rw [hm2, hmo2]
      simp [List.lookup, normScore]
    rw [List.map_cons, List.map_cons]
    rcases call_decisionEquiv s1 s2 h t [(monitor, v)] [(monitor, -v)] (-v)
        h1 h2 with
      ⟨e, he1, he2⟩ |
      ⟨b, evs1, evs2, s1', s2', hc1, hc2, h', hmon1, hmod1, hmon2, hmod2⟩
    · rw [runCalls_cons_err _ _ _ _ _ he1, runCalls_cons_err _ _ _ _ _ he2]
    · rw [runCalls_cons_map _ _ _ _ _ _ _ hc1,
        runCalls_cons_map _ _ _ _ _ _ _ hc2,
        ih s1' s2' h' (hmon1.trans hm1) (hmon2.trans hm2)
          (hmod1.trans hmo1) (hmod2.trans hmo2)]

/-- C7: with the same patience, delta and monitor, running in Minimize mode on
metric values v and in Maximize mode on the mirrored values -v produces the
identical decision sequence; the normalized score is the negated raw value
under "min" mode and the raw value otherwise. -/
theorem earlyStopping_min_max_mirror (p : Nat) (verbose : Bool) (delta : ℚ)
    (monitor : String) (t : TrialId) (xs : List ℚ) :
    (∀ v : ℚ, normScore "min" v = -v ∧ normScore "max" v = v) ∧
    Except.map (fun d => d.1)
      ((mkEarlyStopping p verbose delta monitor "min").runCalls t
        (xs.map (fun v => [(monitor, v)]))) =
    Except.map (fun d => d.1)
      ((mkEarlyStopping p verbose delta monitor "max").runCalls t
        (xs.map (fun v => [(monitor, -v)]))) := by
  constructor
  · intro v
    constructor <;> simp [normScore]
  · exact runCalls_min_max monitor t xs _ _ ⟨rfl, rfl, rfl, rfl, rfl⟩
      rfl rfl rfl rfl

end RayTuneStopper
